import Mathlib

/-!
Shallow embedding of `MCPForLedAPI.py`: the LED pattern codec
(`set_led_pattern`), the mood/color tables, and the tool dispatcher
(`call_tool`).  Strings are Lean `String`s; the HTTP device is abstracted as a
record of its two endpoints, and every operation additionally returns the list
of wire patterns POSTed to `/setLedStatus`, in order, so that theorems can
speak about what was (or was not) sent to the device.
-/

namespace LedApi

/-- Python's `s.split(sep)` for a single-character separator, on the
character list of the string.  `[] ↦ [[]]`, and each separator occurrence
starts a new chunk, so `"a:b".split(":") = ["a","b"]` and
`":".split(":") = ["",""]`. -/
def pySplit (sep : Char) : List Char → List (List Char)
  | [] => [[]]
  | c :: rest =>
    match pySplit sep rest with
    | [] => [[c]]
    | h :: t => if c = sep then [] :: h :: t else (c :: h) :: t

/-- Python's `s.isdigit()` restricted to ASCII: nonempty and all characters
are decimal digits. -/
def pyIsdigit (l : List Char) : Bool :=
  !l.isEmpty && l.all (fun c => c.isDigit)

/-- Python's `s.lower()` restricted to ASCII: lower-case every character. -/
def pyLower (s : String) : String :=
  String.mk (s.data.map Char.toLower)

/-- The device HTTP API as seen from this process: `post p` is
`requests.post(f"{LED_API_BASE}/setLedStatus", json={"pattern": p}).json()`
rendered to text, `get` is `requests.get(f"{LED_API_BASE}/status").json()`.
`Except.error m` models the request (or its JSON decoding) raising an
exception with message `m`. -/
structure Device where
  post : String → Except String String
  get : Except String String

/-- A device whose requests always succeed with body `"ok"`; used to
evaluate the embedding at concrete inputs. -/
def okDevice : Device := ⟨fun _ => Except.ok "ok", Except.ok "ok"⟩

/-- The extended-format branch of `set_led_pattern` (taken when the pattern
contains a colon): split on `:`, require exactly three parts, validate
state/order/interval in the source's order with the source's messages, then
POST the original pattern. -/
def extendedBranch (dev : Device) (pattern : String) : List String × Except String String :=
  match pySplit ':' pattern.data with
  | [state, order, interval] =>
    if state.length != 4 || state.any (fun c => !(c == '0' || c == '1' || c == '2')) then
      ([], Except.error "State must be 4 digits of 0s, 1s, or 2s (0=off, 1=on, 2=blink)")
    else if order.length != 4 ||
        order.any (fun c => !(c == '0' || c == '1' || c == '2' || c == '3' || c == '4')) then
      ([], Except.error "Order must be 4 digits of 0-4 (0=no sequence, 1-4=position)")
    else if !(pyIsdigit interval) then
      ([], Except.error "Interval must be a numeric value in milliseconds")
    else ([pattern], dev.post pattern)
  | _ => ([], Except.error "Extended pattern format must be SSSS:OOOO:III")

/-- The simple-format branch of `set_led_pattern` (no colon in the pattern):
require exactly 4 binary digits, then POST the pattern. -/
def simpleBranch (dev : Device) (pattern : String) : List String × Except String String :=
  if pattern.data.length != 4 || pattern.data.any (fun c => !(c == '0' || c == '1')) then
    ([], Except.error "Invalid LED pattern format. Must be 4 digits of 0s and 1s.")
  else ([pattern], dev.post pattern)

/-- The translator `set_led_pattern(pattern)`: dispatch on whether the pattern contains a
colon, returning the POSTs issued and the result (`Except.error` both for a
raised `ValueError` and for a device failure, as both propagate to the
caller as exceptions). -/
def set_led_pattern (dev : Device) (pattern : String) : List String × Except String String :=
  if pattern.data.contains ':' then extendedBranch dev pattern
  else simpleBranch dev pattern

/-- The status read `get_led_status()`. -/
def get_led_status (dev : Device) : Except String String := dev.get

/-- The table `MOOD_PATTERNS`, in source order. -/
def MOOD_PATTERNS : List (String × String) :=
  [("calm", "0001"),
   ("alert", "1111"),
   ("focus", "0010"),
   ("idle", "0000"),
   ("energetic", "1100"),
   ("relaxed", "0011"),
   ("sleepy", "0001"),
   ("happy", "0110"),
   ("excited", "1010"),
   ("creative", "1001"),
   ("warning", "1000"),
   ("caution", "0100"),
   ("busy", "1110"),
   ("thinking", "0011"),
   ("success", "0010"),
   ("error", "1000"),
   ("party", "1111"),
   ("night", "0001"),
   ("sunrise", "1100"),
   ("sunset", "1010")]

/-- The table `COLOR_PATTERNS`. -/
def COLOR_PATTERNS : List (String × String) :=
  [("red", "1000"),
   ("yellow", "0100"),
   ("green", "0010"),
   ("blue", "0001")]

/-- The codec's mood resolution as performed by `call_tool`:
`MOOD_PATTERNS.get(arguments["mood"].lower())`. -/
def resolve_mood (name : String) : Option String :=
  MOOD_PATTERNS.lookup (pyLower name)

/-- The codec's color resolution as performed by `call_tool`:
`COLOR_PATTERNS.get(arguments["color"].lower())`. -/
def resolve_color (name : String) : Option String :=
  COLOR_PATTERNS.lookup (pyLower name)

/-- The list `led_colors` in the `set_blink_pattern` branch. -/
def led_colors : List String := ["red", "yellow", "green", "blue"]

/-- The `state_desc` loop of the `set_blink_pattern` branch:
`for i, state in enumerate(led_states)` with entries built from
`led_colors[i]` and `blink_order[i]`.  `none` models an `IndexError`
(unreachable after the pattern validated). -/
def state_desc (states order : List Char) (i : Nat) : Option (List String) :=
  match states with
  | [] => some []
  | s :: rest =>
    if s = '1' then
      match led_colors.get? i, state_desc rest order (i + 1) with
      | some c, some d => some ((c ++ " steady") :: d)
      | _, _ => none
    else if s = '2' then
      match led_colors.get? i, order.get? i, state_desc rest order (i + 1) with
      | some c, some o, some d =>
        if o = '0' then some ((c ++ " blinking") :: d)
        else some ((c ++ " blinking (seq " ++ o.toString ++ ")") :: d)
      | _, _, _ => none
    else state_desc rest order (i + 1)

/-- The joined description `desc_text`: join the emitted entries with `", "`, or the literal
`"all LEDs off"` when none were emitted. -/
def desc_text (states order : List Char) : Option String :=
  (state_desc states order 0).map
    (fun l => if l = [] then "all LEDs off" else String.intercalate ", " l)

/-- The claim's per-slot rule for the blink description, stated from the
claim's words: a `'1'` slot emits `"<color> steady"`, a `'2'` slot emits
`"<color> blinking"` when its order digit is `'0'` and
`"<color> blinking (seq <digit>)"` otherwise, and a `'0'` slot emits
nothing. -/
def specEntry (c : String) (s o : Char) : Option String :=
  if s = '1' then some (c ++ " steady")
  else if s = '2' then
    if o = '0' then some (c ++ " blinking")
    else some (c ++ " blinking (seq " ++ o.toString ++ ")")
  else none

/-- The claim's emitted entries: the 4 slots in the fixed order red,
yellow, green, blue, each filtered through `specEntry`. -/
def specEntries : List String → List Char → List Char → List String
  | c :: cs, s :: ss, o :: os =>
    match specEntry c s o with
    | some e => e :: specEntries cs ss os
    | none => specEntries cs ss os
  | _, _, _ => []

/-- The claim's description: entries joined with `", "`, or the literal
`"all LEDs off"` when no entry was emitted. -/
def describeSpec (states order : List Char) : String :=
  if specEntries led_colors states order = [] then "all LEDs off"
  else String.intercalate ", " (specEntries led_colors states order)

/-- The argument bag passed to `call_tool`; `none` models an absent key. -/
structure Args where
  color : Option String
  pattern : Option String
  mood : Option String
  led_states : Option String
  blink_order : Option String
  interval_ms : Option Int

/-- The empty argument bag. -/
def noArgs : Args := ⟨none, none, none, none, none, none⟩

/-- The tool names `call_tool` recognises. -/
def knownTools : List String :=
  ["turn_on_led", "turn_off_leds", "set_led_pattern", "set_mood",
   "get_led_status", "set_blink_pattern"]

/-- The dispatcher `call_tool(name, arguments)`: returns the wire patterns POSTed and the
texts of the returned payload (always a single `TextContent` in the source).
Every exception — `KeyError` on a missing required argument (whose Python
rendering is the quoted key), `ValueError` from validation, and device
failures — is caught by the `except` block and rendered `"Error: <msg>"`. -/
def call_tool (dev : Device) (name : String) (args : Args) : List String × List String :=
  if name = "turn_on_led" then
    match args.color with
    | none => ([], ["Error: 'color'"])
    | some colorArg =>
      let color := pyLower colorArg
      match COLOR_PATTERNS.lookup color with
      | none => ([], ["Error: Unsupported color: " ++ color])
      | some pattern =>
        let r := set_led_pattern dev pattern
        match r.2 with
        | Except.ok result => (r.1, ["Turned on " ++ color ++ " LED. Result: " ++ result])
        | Except.error e => (r.1, ["Error: " ++ e])
  else if name = "turn_off_leds" then
    let r := set_led_pattern dev "0000"
    match r.2 with
    | Except.ok result => (r.1, ["Turned off all LEDs. Result: " ++ result])
    | Except.error e => (r.1, ["Error: " ++ e])
  else if name = "set_led_pattern" then
    match args.pattern with
    | none => ([], ["Error: 'pattern'"])
    | some pattern =>
      let r := set_led_pattern dev pattern
      match r.2 with
      | Except.ok result =>
        (r.1, ["Set LED pattern to " ++ pattern ++ ". Result: " ++ result])
      | Except.error e => (r.1, ["Error: " ++ e])
  else if name = "set_mood" then
    match args.mood with
    | none => ([], ["Error: 'mood'"])
    | some moodArg =>
      let mood := pyLower moodArg
      match MOOD_PATTERNS.lookup mood with
      | none => ([], ["Error: Unsupported mood: " ++ mood])
      | some pattern =>
        let r := set_led_pattern dev pattern
        match r.2 with
        | Except.ok result =>
          (r.1, ["Set mood to '" ++ mood ++ "' with pattern " ++ pattern ++ ". Result: " ++ result])
        | Except.error e => (r.1, ["Error: " ++ e])
  else if name = "get_led_status" then
    match get_led_status dev with
    | Except.ok result => ([], ["LED Status: " ++ result])
    | Except.error e => ([], ["Error: " ++ e])
  else if name = "set_blink_pattern" then
    match args.led_states with
    | none => ([], ["Error: 'led_states'"])
    | some led_states =>
      let blink_order := args.blink_order.getD "0000"
      let interval_ms := args.interval_ms.getD 500
      let extended_pattern := led_states ++ ":" ++ blink_order ++ ":" ++ toString interval_ms
      let r := set_led_pattern dev extended_pattern
      match r.2 with
      | Except.ok result =>
        match desc_text led_states.data blink_order.data with
        | some d =>
          (r.1, ["Set blink pattern: " ++ d ++ " at " ++ toString interval_ms ++
                 "ms interval. Result: " ++ result])
        | none => (r.1, ["Error: string index out of range"])
      | Except.error e => (r.1, ["Error: " ++ e])
  else ([], ["Error: Unknown tool: " ++ name])

/-! ## Helper lemmas -/

lemma pySplit_ne_nil (sep : Char) (l : List Char) : pySplit sep l ≠ [] := by
  cases l with
  | nil => simp [pySplit]
  | cons c rest =>
    simp only [pySplit]
    split
    · simp
    · split <;> simp

lemma pySplit_no_sep {sep : Char} : ∀ {l : List Char}, sep ∉ l → pySplit sep l = [l] := by
  intro l
  induction l with
  | nil => intro _; rfl
  | cons c rest ih =>
    intro h
    have hc : c ≠ sep := fun he => h (he ▸ List.mem_cons_self c rest)
    have hr := ih (fun hm => h (List.mem_cons_of_mem c hm))
    simp [pySplit, hr, hc]

lemma pySplit_append {sep : Char} :
    ∀ {xs : List Char} (ys : List Char), sep ∉ xs →
      pySplit sep (xs ++ sep :: ys) = xs :: pySplit sep ys := by
  intro xs
  induction xs with
  | nil =>
    intro ys _
    rcases hy : pySplit sep ys with _ | ⟨hd, tl⟩
    · exact absurd hy (pySplit_ne_nil sep ys)
    · simp [pySplit, hy]
  | cons c rest ih =>
    intro ys h
    have hc : c ≠ sep := fun he => h (he ▸ List.mem_cons_self c rest)
    have hr := ih ys (fun hm => h (List.mem_cons_of_mem c hm))
    simp [pySplit, hr, hc]

lemma data_join (s o i : String) :
    (s ++ ":" ++ o ++ ":" ++ i).data = s.data ++ ':' :: (o.data ++ ':' :: i.data) := by
  simp [String.data_append]

/-! ## Claims -/

/-- C1: for every states string in `{0,1,2}^4`, order string in
`{0,1,2,3,4}^4` and nonempty decimal-digit interval string, encoding the
extended pattern succeeds and the wire pattern POSTed to the device is
exactly the literal join `states ++ ":" ++ order ++ ":" ++ interval`; no
cross-field consistency between states and order is required. -/
theorem extended_wire_is_literal_join (dev : Device) (s o i : String)
    (hs4 : s.data.length = 4)
    (hs : ∀ c ∈ s.data, c = '0' ∨ c = '1' ∨ c = '2')
    (ho4 : o.data.length = 4)
    (ho : ∀ c ∈ o.data, c = '0' ∨ c = '1' ∨ c = '2' ∨ c = '3' ∨ c = '4')
    (hi0 : i.data ≠ [])
    (hid : ∀ c ∈ i.data, c.isDigit = true) :
    set_led_pattern dev (s ++ ":" ++ o ++ ":" ++ i) =
      ([s ++ ":" ++ o ++ ":" ++ i], dev.post (s ++ ":" ++ o ++ ":" ++ i)) := by
  have hsc : ':' ∉ s.data := fun hm => by
    rcases hs _ hm with h | h | h <;> exact absurd h (by decide)
  have hoc : ':' ∉ o.data := fun hm => by
    rcases ho _ hm with h | h | h | h | h <;> exact absurd h (by decide)
  have hic : ':' ∉ i.data := fun hm => by
    have := hid _ hm
    exact absurd this (by decide)
  have hd := data_join s o i
  have hcontains : ((s ++ ":" ++ o ++ ":" ++ i).data).contains ':' = true := by
    rw [hd]
    exact List.elem_iff.mpr (List.mem_append_right _ (List.mem_cons_self _ _))
  have hsplit : pySplit ':' ((s ++ ":" ++ o ++ ":" ++ i).data) = [s.data, o.data, i.data] := by
    rw [hd, pySplit_append _ hsc, pySplit_append _ hoc, pySplit_no_sep hic]
  have hc1 : (s.data.length != 4 ||
      s.data.any (fun c => !(c == '0' || c == '1' || c == '2'))) = false := by
    simp only [Bool.or_eq_false_iff, bne_eq_false_iff_eq, List.any_eq_false]
    refine ⟨hs4, ?_⟩
    intro c hc
    rcases hs c hc with rfl | rfl | rfl <;> decide
  have hc2 : (o.data.length != 4 ||
      o.data.any (fun c => !(c == '0' || c == '1' || c == '2' || c == '3' || c == '4'))) = false := by
    simp only [Bool.or_eq_false_iff, bne_eq_false_iff_eq, List.any_eq_false]
    refine ⟨ho4, ?_⟩
    intro c hc
    rcases ho c hc with rfl | rfl | rfl | rfl | rfl <;> decide
  have hc3 : pyIsdigit i.data = true := by
    simp only [pyIsdigit, Bool.and_eq_true, Bool.not_eq_true']
    exact ⟨List.isEmpty_eq_false.mpr hi0, List.all_eq_true.mpr hid⟩
  unfold set_led_pattern extendedBranch
  rw [hcontains, if_pos rfl, hsplit]
  simp only [hc1, hc2, hc3]
  split_ifs <;> simp_all

/-- C1 witness. -/
theorem extended_wire_is_literal_join_witness :
    set_led_pattern okDevice ("2020" ++ ":" ++ "0100" ++ ":" ++ "750") =
      (["2020" ++ ":" ++ "0100" ++ ":" ++ "750"],
       okDevice.post ("2020" ++ ":" ++ "0100" ++ ":" ++ "750")) :=
  extended_wire_is_literal_join okDevice "2020" "0100" "750"
    (by decide) (by decide) (by decide) (by decide) (by decide) (by decide)

lemma contains_eq_false_of_not_mem {l : List Char} {a : Char} (h : a ∉ l) :
    l.contains a = false := by
  rw [Bool.eq_false_iff]
  intro hc
  exact h (List.elem_iff.mp hc)

/-- C2: a 4-character binary string without a colon validates and is sent
unchanged; any other colon-free string fails with the invalid-pattern-format
error message. -/
theorem simple_encoding_correct (dev : Device) (p : String) (hnc : ':' ∉ p.data) :
    ((p.data.length = 4 ∧ ∀ c ∈ p.data, c = '0' ∨ c = '1') →
      set_led_pattern dev p = ([p], dev.post p)) ∧
    (¬(p.data.length = 4 ∧ ∀ c ∈ p.data, c = '0' ∨ c = '1') →
      set_led_pattern dev p =
        ([], Except.error "Invalid LED pattern format. Must be 4 digits of 0s and 1s.")) := by
  have hcf : p.data.contains ':' = false := contains_eq_false_of_not_mem hnc
  have hbranch : set_led_pattern dev p = simpleBranch dev p := by
    unfold set_led_pattern
    rw [hcf]
    simp
  rw [hbranch]
  unfold simpleBranch
  constructor
  · rintro ⟨h4, hbin⟩
    have hcond : (p.data.length != 4 || p.data.any fun c => !(c == '0' || c == '1')) = false := by
      simp only [Bool.or_eq_false_iff, bne_eq_false_iff_eq, List.any_eq_false]
      exact ⟨h4, fun c hc => by rcases hbin c hc with rfl | rfl <;> decide⟩
    simp only [hcond, Bool.false_eq_true, if_false]
  · intro hno
    have hcond : (p.data.length != 4 || p.data.any fun c => !(c == '0' || c == '1')) = true := by
      rw [Bool.or_eq_true]
      by_cases h4 : p.data.length = 4
      · right
        rw [List.any_eq_true]
        have hb : ¬ ∀ c ∈ p.data, c = '0' ∨ c = '1' := fun hb => hno ⟨h4, hb⟩
        push_neg at hb
        obtain ⟨c, hc, hcc⟩ := hb
        exact ⟨c, hc, by simp [hcc.1, hcc.2]⟩
      · left
        exact bne_iff_ne.mpr h4
    simp only [hcond, if_true]

/-- C2 witness. -/
theorem simple_encoding_correct_witness :
    set_led_pattern okDevice "1010" = (["1010"], okDevice.post "1010") ∧
    set_led_pattern okDevice "10a0" =
      ([], Except.error "Invalid LED pattern format. Must be 4 digits of 0s and 1s.") :=
  ⟨(simple_encoding_correct okDevice "1010" (by decide)).1 (by decide),
   (simple_encoding_correct okDevice "10a0" (by decide)).2 (by decide)⟩

/-- C3: the codec takes the extended branch exactly when the pattern
contains a colon, and otherwise the simple branch; a malformed extended
pattern missing its colons is rejected with the simple-format error. -/
theorem colon_dispatch (dev : Device) (p : String) :
    (':' ∈ p.data → set_led_pattern dev p = extendedBranch dev p) ∧
    (':' ∉ p.data → set_led_pattern dev p = simpleBranch dev p) ∧
    set_led_pattern dev "20200000500" =
      ([], Except.error "Invalid LED pattern format. Must be 4 digits of 0s and 1s.") := by
  refine ⟨?_, ?_, rfl⟩
  · intro h
    have hct : p.data.contains ':' = true := List.elem_iff.mpr h
    unfold set_led_pattern
    rw [hct]
    simp
  · intro h
    have hcf : p.data.contains ':' = false := contains_eq_false_of_not_mem h
    unfold set_led_pattern
    rw [hcf]
    simp

/-- C3 witness. -/
theorem colon_dispatch_witness :
    set_led_pattern okDevice "1010:0000:500" = extendedBranch okDevice "1010:0000:500" ∧
    set_led_pattern okDevice "1010" = simpleBranch okDevice "1010" :=
  ⟨(colon_dispatch okDevice "1010:0000:500").1 (by decide),
   (colon_dispatch okDevice "1010").2.1 (by decide)⟩

/-- C10: every pattern either fails validation uniformly — same error for
every device, and the POST trace is empty, so the device is untouched — or
passes validation and is POSTed. -/
theorem rejected_patterns_send_nothing (p : String) :
    (∃ e, ∀ dev : Device, set_led_pattern dev p = ([], Except.error e)) ∨
    (∀ dev : Device, set_led_pattern dev p = ([p], dev.post p)) := by
  unfold set_led_pattern extendedBranch simpleBranch
  by_cases hc : p.data.contains ':' = true
  · simp only [hc, if_true]
    rcases hsp : pySplit ':' p.data with _ | ⟨a, _ | ⟨b, _ | ⟨c, _ | ⟨d, t⟩⟩⟩⟩ <;>
      simp only [hsp]
    · exact Or.inl ⟨_, fun dev => rfl⟩
    · exact Or.inl ⟨_, fun dev => rfl⟩
    · exact Or.inl ⟨_, fun dev => rfl⟩
    · by_cases h1 : (a.length != 4 || a.any fun c => !(c == '0' || c == '1' || c == '2')) = true
      · simp only [h1, if_true]
        exact Or.inl ⟨_, fun dev => rfl⟩
      · rw [Bool.not_eq_true] at h1
        simp only [h1, Bool.false_eq_true, if_false]
        by_cases h2 : (b.length != 4 ||
            b.any fun c => !(c == '0' || c == '1' || c == '2' || c == '3' || c == '4')) = true
        · simp only [h2, if_true]
          exact Or.inl ⟨_, fun dev => rfl⟩
        · rw [Bool.not_eq_true] at h2
          simp only [h2, Bool.false_eq_true, if_false]
          by_cases h3 : pyIsdigit c = true
          · simp only [h3, Bool.not_true, Bool.false_eq_true, if_false]
            exact Or.inr (fun dev => by trivial)
          · rw [Bool.not_eq_true] at h3
            simp only [h3, Bool.not_false, if_true]
            exact Or.inl ⟨_, fun dev => rfl⟩
    · exact Or.inl ⟨_, fun dev => rfl⟩
  · rw [Bool.not_eq_true] at hc
    simp only [hc, Bool.false_eq_true, if_false]
    by_cases h1 : (p.data.length != 4 || p.data.any fun c => !(c == '0' || c == '1')) = true
    · simp only [h1, if_true]
      exact Or.inl ⟨_, fun dev => rfl⟩
    · rw [Bool.not_eq_true] at h1
      simp only [h1, Bool.false_eq_true, if_false]
      exact Or.inr (fun dev => by trivial)

/-- C4: the dispatcher always returns exactly one textual payload; an
unknown tool name yields the literal `"Error: Unknown tool: <name>"`, and in
particular the payload for `"bogus"` begins with `"Error:"` and contains
`"Unknown tool"`. -/
theorem dispatcher_fail_soft (dev : Device) (name : String) (args : Args) :
    (call_tool dev name args).2.length = 1 ∧
    (name ∉ knownTools → call_tool dev name args = ([], ["Error: Unknown tool: " ++ name])) ∧
    (∀ t ∈ (call_tool dev "bogus" args).2,
      "Error:".data.isPrefixOf t.data = true ∧ ∃ a b, t = a ++ "Unknown tool" ++ b) := by
  refine ⟨?_, ?_, ?_⟩
  · unfold call_tool
    dsimp only
    repeat' split
    all_goals rfl
  · intro h
    simp only [knownTools, List.mem_cons, List.not_mem_nil, or_false, not_or] at h
    obtain ⟨h1, h2, h3, h4, h5, h6⟩ := h
    unfold call_tool
    rw [if_neg h1, if_neg h2, if_neg h3, if_neg h4, if_neg h5, if_neg h6]
  · have hb : call_tool dev "bogus" args = ([], ["Error: Unknown tool: bogus"]) := rfl
    rw [hb]
    intro t ht
    simp only [List.mem_singleton] at ht
    subst ht
    exact ⟨by decide, "Error: ", ": bogus", by decide⟩

/-- C4 witness. -/
theorem dispatcher_fail_soft_witness :
    (call_tool okDevice "bogus" noArgs).2.length = 1 ∧
    call_tool okDevice "bogus" noArgs = ([], ["Error: Unknown tool: " ++ "bogus"]) :=
  ⟨(dispatcher_fail_soft okDevice "bogus" noArgs).1,
   (dispatcher_fail_soft okDevice "bogus" noArgs).2.1 (by decide)⟩

/-- C5, counterexample: the mood table does not have 21 entries. -/
theorem mood_table_not_21 : ¬ (MOOD_PATTERNS.length = 21) := by decide

/-- C5 amended: the mood table has exactly 20 entries, and `"calm"`,
`"sleepy"` and `"night"` all map to `"0001"`. -/
theorem mood_table_size_and_aliases :
    MOOD_PATTERNS.length = 20 ∧
    MOOD_PATTERNS.lookup "calm" = some "0001" ∧
    MOOD_PATTERNS.lookup "sleepy" = some "0001" ∧
    MOOD_PATTERNS.lookup "night" = some "0001" := by
  refine ⟨rfl, rfl, rfl, rfl⟩

lemma specEntries_nil (cs : List String) (os : List Char) : specEntries cs [] os = [] := by
  cases cs <;> cases os <;> rfl

lemma state_desc_eq_spec : ∀ (ss : List Char) (order : List Char) (i : Nat),
    i + ss.length ≤ 4 → order.length = 4 →
    state_desc ss order i = some (specEntries (led_colors.drop i) ss (order.drop i)) := by
  intro ss
  induction ss with
  | nil =>
    intro order i _ _
    simp [state_desc, specEntries_nil]
  | cons s rest ih =>
    intro order i hi ho
    simp only [List.length_cons] at hi
    have hi4 : i < led_colors.length := by
      simp only [led_colors, List.length_cons, List.length_nil]
      omega
    have hio : i < order.length := by omega
    have hcolor : led_colors.get? i = some led_colors[i] := by
      rw [List.get?_eq_getElem?, List.getElem?_eq_getElem hi4]
    have horder : order.get? i = some order[i] := by
      rw [List.get?_eq_getElem?, List.getElem?_eq_getElem hio]
    have hrec := ih order (i + 1) (by omega) ho
    have hdc : led_colors.drop i = led_colors[i] :: led_colors.drop (i + 1) :=
      List.drop_eq_getElem_cons hi4
    have hdo : order.drop i = order[i] :: order.drop (i + 1) :=
      List.drop_eq_getElem_cons hio
    rw [hdc, hdo]
    simp only [state_desc, specEntries, specEntry, hcolor, horder, hrec]
    split_ifs <;> rfl

/-- C6: for 4-slot states over `{0,1,2}` and orders over `{0,1,2,3,4}`, the
code's blink description equals the claim's description — slots enumerated
red, yellow, green, blue, `'1'` ↦ steady, `'2'` ↦ blinking (with `seq`
clause when the order digit is nonzero), `'0'` ↦ nothing, joined with
`", "`, with `"all LEDs off"` when nothing was emitted — and the two
concrete examples behave as stated. -/
theorem blink_description_correct (states order : List Char)
    (hs4 : states.length = 4) (ho4 : order.length = 4)
    (_hs : ∀ c ∈ states, c = '0' ∨ c = '1' ∨ c = '2')
    (_ho : ∀ c ∈ order, c = '0' ∨ c = '1' ∨ c = '2' ∨ c = '3' ∨ c = '4') :
    desc_text states order = some (describeSpec states order) ∧
    desc_text "2020".data "0000".data = some "red blinking, green blinking" ∧
    desc_text "0000".data "0000".data = some "all LEDs off" := by
  refine ⟨?_, by decide, by decide⟩
  have h := state_desc_eq_spec states order 0 (by omega) ho4
  simp only [List.drop_zero] at h
  simp [desc_text, describeSpec, h]

/-- C6 witness. -/
theorem blink_description_correct_witness :
    desc_text "2120".data "0304".data = some (describeSpec "2120".data "0304".data) ∧
    desc_text "2020".data "0000".data = some "red blinking, green blinking" ∧
    desc_text "0000".data "0000".data = some "all LEDs off" :=
  blink_description_correct "2120".data "0304".data (by decide) (by decide) (by decide)
    (by decide)

lemma lookup_of_mem {l : List (String × String)} (hnd : (l.map Prod.fst).Nodup)
    {k v : String} (hm : (k, v) ∈ l) : l.lookup k = some v := by
  induction l with
  | nil => cases hm
  | cons hd tl ih =>
    rw [List.map_cons, List.nodup_cons] at hnd
    rcases List.mem_cons.mp hm with heq | htl
    · rw [← heq]
      simp [List.lookup]
    · have hk : (k == hd.1) = false := by
        apply beq_false_of_ne
        intro he
        exact hnd.1 (he ▸ List.mem_map.mpr ⟨(k, v), htl, rfl⟩)
      obtain ⟨a, b⟩ := hd
      simp only [List.lookup, hk]
      exact ih hnd.2 htl

lemma lookup_eq_none_of_not_mem {l : List (String × String)} {k : String}
    (h : k ∉ l.map Prod.fst) : l.lookup k = none := by
  induction l with
  | nil => rfl
  | cons hd tl ih =>
    rw [List.map_cons, List.mem_cons, not_or] at h
    have hk : (k == hd.1) = false := beq_false_of_ne h.1
    obtain ⟨a, b⟩ := hd
    simp only [List.lookup, hk]
    exact ih h.2

/-- C7: mood and color resolution lower-case the name and look it up, so
every case variant of a table key resolves to that key's pattern
(`"CALM"`, `"calm"`, `"Calm"` ↦ `"0001"`, `"blue"` ↦ `"0001"`), while every
name absent from the table — every name whose lowered form is not a table
key — fails to resolve, and the dispatcher renders it as the corresponding
unsupported-mood or unsupported-color error (e.g. `"purple"`). -/
theorem case_insensitive_resolution :
    (∀ k v, (k, v) ∈ MOOD_PATTERNS → ∀ name, pyLower name = k → resolve_mood name = some v) ∧
    (∀ k v, (k, v) ∈ COLOR_PATTERNS → ∀ name, pyLower name = k → resolve_color name = some v) ∧
    (∀ name, pyLower name ∉ MOOD_PATTERNS.map Prod.fst → resolve_mood name = none) ∧
    (∀ name, pyLower name ∉ COLOR_PATTERNS.map Prod.fst → resolve_color name = none) ∧
    (∀ (dev : Device) (name : String), pyLower name ∉ COLOR_PATTERNS.map Prod.fst →
      call_tool dev "turn_on_led" ⟨some name, none, none, none, none, none⟩ =
        ([], ["Error: Unsupported color: " ++ pyLower name])) ∧
    (∀ (dev : Device) (name : String), pyLower name ∉ MOOD_PATTERNS.map Prod.fst →
      call_tool dev "set_mood" ⟨none, none, some name, none, none, none⟩ =
        ([], ["Error: Unsupported mood: " ++ pyLower name])) ∧
    resolve_mood "CALM" = some "0001" ∧
    resolve_mood "calm" = some "0001" ∧
    resolve_mood "Calm" = some "0001" ∧
    resolve_color "blue" = some "0001" ∧
    resolve_color "purple" = none := by
  have hm : (MOOD_PATTERNS.map Prod.fst).Nodup := by decide
  have hc : (COLOR_PATTERNS.map Prod.fst).Nodup := by decide
  refine ⟨?_, ?_, ?_, ?_, ?_, ?_, by decide, by decide, by decide, by decide, by decide⟩
  · intro k v hkv name hname
    unfold resolve_mood
    rw [hname]
    exact lookup_of_mem hm hkv
  · intro k v hkv name hname
    unfold resolve_color
    rw [hname]
    exact lookup_of_mem hc hkv
  · intro name h
    unfold resolve_mood
    exact lookup_eq_none_of_not_mem h
  · intro name h
    unfold resolve_color
    exact lookup_eq_none_of_not_mem h
  · intro dev name h
    have hl : COLOR_PATTERNS.lookup (pyLower name) = none := lookup_eq_none_of_not_mem h
    unfold call_tool
    rw [if_pos rfl]
    dsimp only
    rw [hl]
  · intro dev name h
    have hl : MOOD_PATTERNS.lookup (pyLower name) = none := lookup_eq_none_of_not_mem h
    unfold call_tool
    rw [if_neg (by decide), if_neg (by decide), if_neg (by decide), if_pos rfl]
    dsimp only
    rw [hl]

/-- C7 witness. -/
theorem case_insensitive_resolution_witness :
    resolve_mood "CALM" = some "0001" ∧ resolve_color "BLUE" = some "0001" ∧
    resolve_mood "purple" = none ∧
    call_tool okDevice "turn_on_led" ⟨some "purple", none, none, none, none, none⟩ =
      ([], ["Error: Unsupported color: " ++ pyLower "purple"]) :=
  ⟨case_insensitive_resolution.1 "calm" "0001" (by decide) "CALM" (by decide),
   case_insensitive_resolution.2.1 "blue" "0001" (by decide) "BLUE" (by decide),
   case_insensitive_resolution.2.2.1 "purple" (by decide),
   case_insensitive_resolution.2.2.2.2.1 okDevice "purple" (by decide)⟩

/-- C8: `set_blink_pattern` with `led_states="1001"` and default order and
interval POSTs exactly the wire pattern `"1001:0000:500"` (whatever the
device replies), and with a succeeding device renders the description
`"red steady, blue steady"` with the `" at 500ms interval."` clause. -/
theorem blink_default_example (dev : Device) :
    (call_tool dev "set_blink_pattern" ⟨none, none, none, some "1001", none, none⟩).1 =
      ["1001:0000:500"] ∧
    call_tool okDevice "set_blink_pattern" ⟨none, none, none, some "1001", none, none⟩ =
      (["1001:0000:500"],
       ["Set blink pattern: red steady, blue steady at 500ms interval. Result: ok"]) := by
  refine ⟨?_, rfl⟩
  have h : call_tool dev "set_blink_pattern" ⟨none, none, none, some "1001", none, none⟩ =
      (match dev.post "1001:0000:500" with
       | Except.ok result =>
         (["1001:0000:500"],
          ["Set blink pattern: red steady, blue steady at 500ms interval. Result: " ++ result])
       | Except.error e => (["1001:0000:500"], ["Error: " ++ e])) := rfl
  rw [h]
  cases dev.post "1001:0000:500" <;> rfl

/-- C9, counterexample: `interval_ms = 7` (outside the declared 50–10000
range) is not rejected — the POST trace is nonempty. -/
theorem interval_range_counterexample :
    ¬ ((call_tool okDevice "set_blink_pattern"
        ⟨none, none, none, some "1001", none, some 7⟩).1 = []) := by decide

/-- C9 amended: the 50–10000 range for `interval_ms` exists only in the
declared input schema; the dispatcher performs no range check and forwards
out-of-range values such as 7 and 99999 to the device inside the wire
pattern. -/
theorem interval_forwarded_unchecked (dev : Device) :
    (call_tool dev "set_blink_pattern" ⟨none, none, none, some "1001", none, some 7⟩).1 =
      ["1001:0000:7"] ∧
    (call_tool dev "set_blink_pattern" ⟨none, none, none, some "1001", none, some 99999⟩).1 =
      ["1001:0000:99999"] := by
  constructor
  · have h : call_tool dev "set_blink_pattern" ⟨none, none, none, some "1001", none, some 7⟩ =
        (match dev.post "1001:0000:7" with
         | Except.ok result =>
           (["1001:0000:7"],
            ["Set blink pattern: red steady, blue steady at 7ms interval. Result: " ++ result])
         | Except.error e => (["1001:0000:7"], ["Error: " ++ e])) := rfl
    rw [h]
    cases dev.post "1001:0000:7" <;> rfl
  · have h : call_tool dev "set_blink_pattern"
        ⟨none, none, none, some "1001", none, some 99999⟩ =
        (match dev.post "1001:0000:99999" with
         | Except.ok result =>
           (["1001:0000:99999"],
            ["Set blink pattern: red steady, blue steady at 99999ms interval. Result: " ++
             result])
         | Except.error e => (["1001:0000:99999"], ["Error: " ++ e])) := rfl
    rw [h]
    cases dev.post "1001:0000:99999" <;> rfl

end LedApi
